import Mathlib

/-!
Verification of the scio-beast SocketCluster client (`src/scio_beast.hpp`)
against its natural-language specification.

The development shallowly embeds the relevant parts of the header:

* a JSON value model mirroring `nlohmann::json` (objects are key-sorted maps,
  so structural equality of the model coincides with `json::operator==` on
  objects with unique keys);
* the `CodecEngineMinBin` structural rewrites performed before/after
  MessagePack serialization (`to_msgpack`/`from_msgpack` are an injective
  byte serialization applied after the rewrite, so every claim about the
  codec is stated on the rewrite);
* the `SCSocket` state (connection state, auth token, call-id counter,
  egress queue, pending-response table, channel registry) and the operations
  the claims are about, with event emissions made explicit as output traces;
* the reconnect-delay computation over exact rationals (every floating-point
  value reached in the claims' range — powers of 1.5 up to exponent 33 and
  their products with small integers — is a dyadic rational exactly
  representable in IEEE double, so the rational model computes the same
  values the C++ `double` computation does there).
-/

namespace ScioBeast

/-- JSON values, mirroring `nlohmann::json`.  Object fields are kept sorted
by key (as in the `std::map` backing `nlohmann::json`), so plain structural
equality corresponds to `json::operator==` for objects with unique keys. -/
inductive Json where
  | null : Json
  | bool (b : Bool) : Json
  | num (n : Int) : Json
  | str (s : String) : Json
  | arr (elems : List Json) : Json
  | obj (fields : List (String × Json)) : Json

/-- Field lookup in an object field list (`json::at` / `json::find`). -/
def lookupField : List (String × Json) → String → Option Json
  | [], _ => none
  | (k', v) :: rest, k => if k' = k then some v else lookupField rest k

/-- `obj.at(key)` on a JSON object; `none` both when the key is absent
(`std::out_of_range` in the source, which the codec catches) and when the
value is not an object (a `type_error` the source never reaches on the
packet shapes the claims quantify over). -/
def jget : Json → String → Option Json
  | Json.obj fs, k => lookupField fs k
  | _, _ => none

/-- Code-point lexicographic order on character lists, the order of
`std::string::operator<` (all object keys in the source are ASCII, where
byte order and code-point order agree). -/
def charListLt : List Char → List Char → Bool
  | [], [] => false
  | [], _ :: _ => true
  | _ :: _, [] => false
  | a :: as, b :: bs =>
    if a.toNat < b.toNat then true
    else if b.toNat < a.toNat then false
    else charListLt as bs

/-- Key order of the `std::map` backing `nlohmann::json` objects. -/
def keyLt (a b : String) : Bool := charListLt a.toList b.toList

/-- Sorted insertion used by `obj[key] = v`: replaces an existing binding,
otherwise inserts preserving the key order of the `std::map`. -/
def insertField (fs : List (String × Json)) (k : String) (v : Json) :
    List (String × Json) :=
  match fs with
  | [] => [(k, v)]
  | (k', v') :: rest =>
    if k = k' then (k, v) :: rest
    else if keyLt k k' then (k, v) :: (k', v') :: rest
    else (k', v') :: insertField rest k v

/-- `obj[key] = v`.  On a non-object the source would first convert `null`
to an object; the codec only ever calls this on objects. -/
def jset (j : Json) (k : String) (v : Json) : Json :=
  match j with
  | Json.obj fs => Json.obj (insertField fs k v)
  | _ => Json.obj [(k, v)]

/-- `obj.erase(key)` on the field list (keys are unique). -/
def eraseField : List (String × Json) → String → List (String × Json)
  | [], _ => []
  | (k', v) :: rest, k => if k' = k then rest else (k', v) :: eraseField rest k

/-- `obj.erase(key)`. -/
def jerase (j : Json) (k : String) : Json :=
  match j with
  | Json.obj fs => Json.obj (eraseField fs k)
  | _ => j

/-- `CodecEngineMinBin::eraseMembers`. -/
def jeraseAll (j : Json) (ks : List String) : Json :=
  ks.foldl jerase j

/-- `obj.value(key, "")` specialised to strings: the stored string when the
key maps to one, the default otherwise (key absent). -/
def jvalueStr (j : Json) (k : String) (dflt : String) : String :=
  match jget j k with
  | some (Json.str s) => s
  | _ => dflt

/-- `obj.value(key, 0)` specialised to integers (used for `cid` / `rid`). -/
def jvalueInt (j : Json) (k : String) (dflt : Int) : Int :=
  match jget j k with
  | some (Json.num n) => n
  | _ => dflt

/-- Unchecked array indexing `a[i]` (the codec indexes only into the
compressed arrays it previously produced, which are long enough). -/
def jidx (j : Json) (i : Nat) : Json :=
  match j with
  | Json.arr xs => xs.getD i Json.null
  | _ => Json.null

/-- `json::size` on arrays (used for `p.size() > 2` etc.). -/
def jlen (j : Json) : Nat :=
  match j with
  | Json.arr xs => xs.length
  | _ => 0

/-- `json::is_null`. -/
def jIsNull (j : Json) : Bool :=
  match j with
  | Json.null => true
  | _ => false

/-- `json::empty`: `null` and empty containers are empty, primitives are not. -/
def jIsEmpty (j : Json) : Bool :=
  match j with
  | Json.null => true
  | Json.arr [] => true
  | Json.obj [] => true
  | _ => false

/-!
## `CodecEngineMinBin`

The structural rewrites of `CodecEngineMinBin::encode` / `decode`
(`src/scio_beast.hpp:173-339`).  `json::to_msgpack` / `from_msgpack` are an
injective byte serialization applied after (resp. inverted before) these
rewrites, so "`encode` returns the MessagePack encoding of `x`" is stated
here as "the encode rewrite returns `x`".
-/

/-- `CodecEngineMinBin::compressPublishPacket`: on a packet with an `event`
string equal to `"#publish"` and a `data` member that itself has a `data`
member, build `a = [event, data.data]` (appending `cid` when non-zero),
store it under `"p"` and erase `event`/`data`/`cid`.  A failing `at(...)`
throws `std::out_of_range`, caught as a no-op. -/
def compressPublishPacket (obj : Json) : Json :=
  match jget obj "event", jget obj "data" with
  | some (Json.str eventName), some data =>
    if eventName ≠ "#publish" then obj
    else
      match jget data "data" with
      | some inner =>
        let cid := jvalueInt obj "cid" 0
        let a := if cid ≠ 0 then Json.arr [Json.str eventName, inner, Json.num cid]
                 else Json.arr [Json.str eventName, inner]
        jeraseAll (jset obj "p" a) ["event", "data", "cid"]
      | none => obj
  | _, _ => obj

/-- `CodecEngineMinBin::decompressPublishPacket`: on a packet with a `"p"`
member, set `event = "#publish"`, `data = {channel: p[0], data: p[1]}`,
`cid = p[2]` when present, and erase `"p"`. -/
def decompressPublishPacket (obj : Json) : Json :=
  match jget obj "p" with
  | some p =>
    let obj1 := jset obj "event" (Json.str "#publish")
    let obj2 := jset obj1 "data"
      (Json.obj [("channel", jidx p 0), ("data", jidx p 1)])
    let obj3 := if jlen p > 2 then jset obj2 "cid" (jidx p 2) else obj2
    jerase obj3 "p"
  | none => obj

/-- `CodecEngineMinBin::compressEmitPacket`: on a packet with `event` and
`data` members, build `a = [event, data]` (appending `cid` when non-zero),
store it under `"e"` and erase `event`/`data`/`cid`. -/
def compressEmitPacket (obj : Json) : Json :=
  match jget obj "event", jget obj "data" with
  | some (Json.str eventName), some data =>
    let cid := jvalueInt obj "cid" 0
    let a := if cid ≠ 0 then Json.arr [Json.str eventName, data, Json.num cid]
             else Json.arr [Json.str eventName, data]
    jeraseAll (jset obj "e" a) ["event", "data", "cid"]
  | _, _ => obj

/-- `CodecEngineMinBin::decompressEmitPacket`. -/
def decompressEmitPacket (obj : Json) : Json :=
  match jget obj "e" with
  | some e =>
    let obj1 := jset obj "event" (jidx e 0)
    let obj2 := jset obj1 "data" (jidx e 1)
    let obj3 := if jlen e > 2 then jset obj2 "cid" (jidx e 2) else obj2
    jerase obj3 "e"
  | none => obj

/-- `CodecEngineMinBin::compressResponsePacket`: on a packet with `rid`,
`error` and `data` members, store `[rid, error, data]` under `"r"` and
erase the three. -/
def compressResponsePacket (obj : Json) : Json :=
  match jget obj "rid", jget obj "error", jget obj "data" with
  | some (Json.num rid), some err, some data =>
    jeraseAll (jset obj "r" (Json.arr [Json.num rid, err, data]))
      ["rid", "error", "data"]
  | _, _, _ => obj

/-- `CodecEngineMinBin::decompressResponsePacket`: `rid = r[0]`; `error`
only when `r[1]` is non-null; `data` only when `r[2]` is non-null. -/
def decompressResponsePacket (obj : Json) : Json :=
  match jget obj "r" with
  | some r =>
    let obj1 := jset obj "rid" (jidx r 0)
    let obj2 := if jIsNull (jidx r 1) then obj1 else jset obj1 "error" (jidx r 1)
    let obj3 := if jIsNull (jidx r 2) then obj2 else jset obj2 "data" (jidx r 2)
    jerase obj3 "r"
  | none => obj

/-- `CodecEngineMinBin::compressSinglePacket`: publish, emit, response
rewrites applied in that order. -/
def compressSinglePacket (obj : Json) : Json :=
  compressResponsePacket (compressEmitPacket (compressPublishPacket obj))

/-- `CodecEngineMinBin::decompressSinglePacket`: emit, publish, response
rewrites applied in that order. -/
def decompressSinglePacket (obj : Json) : Json :=
  decompressResponsePacket (decompressPublishPacket (decompressEmitPacket obj))

/-- The structural rewrite of `CodecEngineMinBin::encode`: arrays are
compressed element-wise; otherwise the packet is compressed only when it has
a non-empty `event` string or a non-zero `rid`, and ELSE the default-
constructed `json o` — null — is serialized, discarding the input. -/
def encodeRewrite (obj : Json) : Json :=
  match obj with
  | Json.arr xs => Json.arr (xs.map compressSinglePacket)
  | _ =>
    if jvalueStr obj "event" "" ≠ "" ∨ jvalueInt obj "rid" 0 ≠ 0 then
      compressSinglePacket obj
    else Json.null

/-- The structural rewrite of `CodecEngineMinBin::decode` (after
`from_msgpack`): arrays decompressed element-wise, objects decompressed,
everything else passed through. -/
def decodeRewrite (obj : Json) : Json :=
  match obj with
  | Json.arr xs => Json.arr (xs.map decompressSinglePacket)
  | Json.obj fs => decompressSinglePacket (Json.obj fs)
  | other => other

/-!
## `SCSocket` state model

The socket state carries the members of `SCSocket` the claims are about.
Signal emissions (`triggerEvent<...>`) and response-handler invocations are
made explicit as an output trace of `SEvent`s; where the source fires a
channel-level signal immediately followed by the identical socket-level
mirror, one trace entry stands for the pair.
-/

/-- `scio_beast::ChannelState`. -/
inductive ChannelState where
  | UNSUBSCRIBED
  | PENDING
  | SUBSCRIBED
  deriving DecidableEq

/-- `SCSocket::State`. -/
inductive ConnState where
  | CLOSED
  | CONNECTING
  | OPEN
  deriving DecidableEq

/-- `SCSocket::AuthState`. -/
inductive AuthState where
  | UNAUTHENTICATED
  | AUTHENTICATED
  deriving DecidableEq

/-- `scio_beast::errors`. -/
inductive ScioError where
  | protocolError
  | unexpectedRid
  | jsonParseFailure
  | responseError
  | ackTimeout
  deriving DecidableEq

/-- `SCSocket::ProtocolEvent`. -/
inductive ProtocolEvent where
  | UNKNOWN
  | PUBLISH
  | REMOVE_TOKEN
  | SET_TOKEN
  | EVENT
  | IS_AUTHENTICATED
  | ACK_RECEIVE
  deriving DecidableEq

/-- Observable effects: signal emissions and response-handler calls. -/
inductive SEvent where
  | errorEvent (e : ScioError)
  | connectEvent (payload : Json)
  | deauthenticateEvent
  | authenticateEvent (token : String)
  | authTokenChangeEvent (token : String)
  | subscriptionStateChangeEvent (name : String) (oldState newState : ChannelState)
  | unsubscribeEvent (name : String)
  | channelMessageEvent (name : String) (data : Json)
  | emitEvent (eventName : String) (data : Json) (wantsResponse : Bool)
  | handlerInvoke (cid : Nat) (ec : Option ScioError) (payload : Json)

/-- `SCSocket::ResponseItem`, with the opaque handler dropped (the trace
identifies a handler by its `cid`) and the timer reduced to its presence. -/
structure ResponseItem where
  hasAckTimer : Bool
  deriving DecidableEq

/-- An `SCChannel` as far as the socket observes it: its subscription state
and the number of connected `ChannelEvent` watcher slots. -/
structure Channel where
  state : ChannelState
  watcherCount : Nat
  deriving DecidableEq

/-- The `SCSocket` members the claims range over. -/
structure SocketState where
  connState : ConnState
  signedAuthToken : String
  authToken : Json
  nextCallId : Nat
  outQueue : List Json
  pendingResponses : List (Nat × ResponseItem)
  channels : List (String × Channel)
  pingTimeout : Nat

/-- Lookup in the pending-response table (`m_pendingResponses.at(cid)`;
`none` models the caught `std::out_of_range`). -/
def lookupPending : List (Nat × ResponseItem) → Nat → Option ResponseItem
  | [], _ => none
  | (c, it) :: rest, cid => if c = cid then some it else lookupPending rest cid

/-- `m_pendingResponses.erase(cid)` (cids are unique in the table). -/
def erasePending : List (Nat × ResponseItem) → Nat → List (Nat × ResponseItem)
  | [], _ => []
  | (c, it) :: rest, cid =>
    if c = cid then rest else (c, it) :: erasePending rest cid

/-- `m_channels.at(name)` (`none` models the caught `std::out_of_range`). -/
def lookupChannel : List (String × Channel) → String → Option Channel
  | [], _ => none
  | (n, ch) :: rest, name => if n = name then some ch else lookupChannel rest name

/-- `m_channels[name] = ch`: replace, or insert in `std::map` key order. -/
def setChannel (chs : List (String × Channel)) (name : String) (ch : Channel) :
    List (String × Channel) :=
  match chs with
  | [] => [(name, ch)]
  | (n, c) :: rest =>
    if name = n then (name, ch) :: rest
    else if keyLt name n then (name, ch) :: (n, c) :: rest
    else (n, c) :: setChannel rest name ch

/-- `m_channels.erase(name)`. -/
def eraseChannel : List (String × Channel) → String → List (String × Channel)
  | [], _ => []
  | (n, c) :: rest, name =>
    if n = name then rest else (n, c) :: eraseChannel rest name

/-- `SCSocket::getAuthState` (`src/scio_beast.hpp:766`): derived from
whether the signed auth token is empty. -/
def getAuthState (s : SocketState) : AuthState :=
  if s.signedAuthToken = "" then AuthState.UNAUTHENTICATED
  else AuthState.AUTHENTICATED

/-- The packet built by `SCSocket::emit`: `{event, data}`, plus `cid` when
a response handler was supplied. -/
def emitPayload (eventName : String) (data : Json) (cid : Option Nat) : Json :=
  let base := jset (jset (Json.obj []) "event" (Json.str eventName)) "data" data
  match cid with
  | some c => jset base "cid" (Json.num (Int.ofNat c))
  | none => base

/-- `SCSocket::emit` (`src/scio_beast.hpp:614-663`), after the dispatch to
the io thread: with a handler, assign `cid = m_nextCallId++`, insert a
`ResponseItem` (with an ack timer unless `noTimeout`), and enqueue the
packet; without one, just enqueue.  Returns the issued cid, if any. -/
def emitOp (s : SocketState) (eventName : String) (data : Json)
    (hasHandler : Bool) (noTimeout : Bool) : SocketState × Option Nat :=
  if hasHandler then
    let cid := s.nextCallId
    ({ s with
        nextCallId := cid + 1,
        pendingResponses := s.pendingResponses ++ [(cid, ⟨!noTimeout⟩)],
        outQueue := s.outQueue ++ [emitPayload eventName data (some cid)] },
     some cid)
  else
    ({ s with outQueue := s.outQueue ++ [emitPayload eventName data none] }, none)

/-- The synthetic payload built by `SCSocket::handleEmitAckTimeout`:
`{error: {message: "no ack for call id (cid) <cid>"}}` with the decimal
cid (`<< std::dec << cid`). -/
def ackTimeoutPayload (cid : Nat) : Json :=
  Json.obj [("error", Json.obj [("message",
    Json.str ("no ack for call id (cid) " ++ toString cid))])]

/-- `SCSocket::handleEmitAckTimeout` (`src/scio_beast.hpp:665-682`): remove
the entry for `cid` and invoke its handler with `ack_timeout` and the
synthetic payload; a missing entry is a caught no-op. -/
def handleEmitAckTimeout (s : SocketState) (cid : Nat) : SocketState × List SEvent :=
  match lookupPending s.pendingResponses cid with
  | some _ =>
    ({ s with pendingResponses := erasePending s.pendingResponses cid },
     [SEvent.handlerInvoke cid (some ScioError.ackTimeout) (ackTimeoutPayload cid)])
  | none => (s, [])

/-- `SCSocket::triggerChannelUnsubscribe` (`src/scio_beast.hpp:984-1004`):
set the channel to `newState`; the state-change and unsubscribe signals
fire only when the old state was `SUBSCRIBED`
(`cancelPendingSubscriberCallback` is an empty TODO in the source). -/
def triggerChannelUnsubscribe (name : String) (ch : Channel)
    (newState : ChannelState) : Channel × List SEvent :=
  let oldState := ch.state
  let ch' := { ch with state := newState }
  if oldState = ChannelState.SUBSCRIBED then
    (ch', [SEvent.subscriptionStateChangeEvent name oldState newState,
           SEvent.unsubscribeEvent name])
  else (ch', [])

/-- `SCSocket::suspendChannelSubscriptions` (`src/scio_beast.hpp:1020-1034`):
for each channel, demote `SUBSCRIBED`/`PENDING` to `PENDING` and keep
`UNSUBSCRIBED` at `UNSUBSCRIBED`, via `triggerChannelUnsubscribe`. -/
def suspendChannelSubscriptions :
    List (String × Channel) → List (String × Channel) × List SEvent
  | [] => ([], [])
  | (name, ch) :: rest =>
    let newState :=
      if ch.state = ChannelState.SUBSCRIBED ∨ ch.state = ChannelState.PENDING
      then ChannelState.PENDING else ChannelState.UNSUBSCRIBED
    let (ch', evs) := triggerChannelUnsubscribe name ch newState
    let (rest', evsRest) := suspendChannelSubscriptions rest
    ((name, ch') :: rest', evs ++ evsRest)

/-- `SCSocket::internalClose` (`src/scio_beast.hpp:854-875`): cancel the
ping watchdog, move `OPEN` to `CLOSED` (closing the websocket), clear the
egress queue, and suspend channel subscriptions.  Note the source never
touches `m_pendingResponses` here. -/
def internalCloseOp (s : SocketState) : SocketState × List SEvent :=
  let s1 := if s.connState = ConnState.OPEN
            then { s with connState := ConnState.CLOSED } else s
  let s2 := { s1 with outQueue := [] }
  let (chs, evs) := suspendChannelSubscriptions s2.channels
  ({ s2 with channels := chs }, evs)

/-- `scio_beast::ChannelSubscriptionOptions` (defaults: `waitForAuth =
false`, `data` null). -/
structure ChannelSubscriptionOptions where
  waitForAuth : Bool
  data : Json

/-- The `channelSubData` built by `SCSocket::tryChannelSubscribe`:
`{channel: name}`, plus `data` when the options carry non-empty data. -/
def subscribeChannelData (name : String) (opts : ChannelSubscriptionOptions) : Json :=
  let base := Json.obj [("channel", Json.str name)]
  if jIsEmpty opts.data then base else jset base "data" opts.data

/-- `SCSocket::tryChannelSubscribe` (`src/scio_beast.hpp:916-945`): when the
socket is `OPEN` and (`waitForAuth` is off or the auth state is
`AUTHENTICATED`), emit `#subscribe` with a response handler; otherwise do
nothing (the channel, set to `PENDING` by the caller, is left as is). -/
def tryChannelSubscribe (s : SocketState) (name : String)
    (opts : ChannelSubscriptionOptions) : SocketState :=
  if s.connState = ConnState.OPEN ∧
      (opts.waitForAuth = false ∨ getAuthState s = AuthState.AUTHENTICATED) then
    (emitOp s "#subscribe" (subscribeChannelData name opts) true false).1
  else s

/-- `SCSocket::subscribe` (`src/scio_beast.hpp:689-707`): find or create the
channel; when it is `UNSUBSCRIBED`, mark it `PENDING` and attempt the
subscribe. -/
def subscribeOp (s : SocketState) (name : String)
    (opts : ChannelSubscriptionOptions) : SocketState :=
  let found := lookupChannel s.channels name
  let ch := match found with
    | some ch => ch
    | none => ⟨ChannelState.UNSUBSCRIBED, 0⟩
  let s1 := match found with
    | some _ => s
    | none => { s with channels := setChannel s.channels name ch }
  if ch.state = ChannelState.UNSUBSCRIBED then
    let s2 := { s1 with
      channels := setChannel s1.channels name { ch with state := ChannelState.PENDING } }
    tryChannelSubscribe s2 name opts
  else s1

/-- `SCSocket::sendChannelUnsubscribe` (`src/scio_beast.hpp:1006-1013`):
emit `#unsubscribe` with the channel name as data, no handler
(`cancelPendingSubscriberCallback` is an empty TODO). -/
def sendChannelUnsubscribe (s : SocketState) (name : String) : SocketState :=
  (emitOp s "#unsubscribe" (Json.str name) false false).1

/-- `SCSocket::unsubscribe` (`src/scio_beast.hpp:709-719`): when the channel
exists and is not `UNSUBSCRIBED`, demote it (emitting the unsubscribe
signals when it was `SUBSCRIBED`) and enqueue `#unsubscribe`; a missing
channel is a caught no-op. -/
def unsubscribeOp (s : SocketState) (name : String) : SocketState × List SEvent :=
  match lookupChannel s.channels name with
  | some ch =>
    if ch.state ≠ ChannelState.UNSUBSCRIBED then
      let (ch', evs) := triggerChannelUnsubscribe name ch ChannelState.UNSUBSCRIBED
      let s1 := { s with channels := setChannel s.channels name ch' }
      (sendChannelUnsubscribe s1 name, evs)
    else (s, [])
  | none => (s, [])

/-- `SCSocket::destroyChannel` (`src/scio_beast.hpp:721-731`): detach all
watchers, unsubscribe, and remove the channel from the registry; a missing
channel is a caught no-op. -/
def destroyChannelOp (s : SocketState) (name : String) : SocketState × List SEvent :=
  match lookupChannel s.channels name with
  | some ch =>
    let s1 := { s with
      channels := setChannel s.channels name { ch with watcherCount := 0 } }
    let (s2, evs) := unsubscribeOp s1 name
    ({ s2 with channels := eraseChannel s2.channels name }, evs)
  | none => (s, [])

/-- `SCSocket::unwatch(name)` (`src/scio_beast.hpp:733-739`): disconnect all
`ChannelEvent` slots of the channel; a missing channel is a caught no-op. -/
def unwatchOp (s : SocketState) (name : String) : SocketState × List SEvent :=
  match lookupChannel s.channels name with
  | some ch =>
    ({ s with channels := setChannel s.channels name { ch with watcherCount := 0 } }, [])
  | none => (s, [])

/-- `SCSocket::getEventType` (`src/scio_beast.hpp:1111-1133`).  A present
non-string `event` would make the source throw an uncaught `type_error`
while binding `std::string const&`; such packets are outside the modelled
domain (the dispatch theorems restrict `event` to string-or-absent) and are
classified `UNKNOWN` here. -/
def getEventType (payload : Json) : ProtocolEvent :=
  match jget payload "event" with
  | some (Json.str eventName) =>
    if eventName = "#publish" then ProtocolEvent.PUBLISH
    else if eventName = "#removeAuthToken" then ProtocolEvent.REMOVE_TOKEN
    else if eventName = "#setAuthToken" then ProtocolEvent.SET_TOKEN
    else ProtocolEvent.EVENT
  | some _ => ProtocolEvent.UNKNOWN
  | none =>
    if jvalueInt payload "rid" 0 = 1 then ProtocolEvent.IS_AUTHENTICATED
    else ProtocolEvent.ACK_RECEIVE

/-- `obj.value(key, dflt)` with a JSON default (used for
`payload.value("data", json::object())`). -/
def jvalueD (j : Json) (k : String) (dflt : Json) : Json :=
  match jget j k with
  | some v => v
  | none => dflt

/-- `boost::split(jwtParts, jwtToken, boost::is_any_of("."))`: split on
every `'.'` (default `token_compress_off`): adjacent delimiters produce
empty parts and the empty string yields one empty part. -/
def splitDot : List Char → List (List Char)
  | [] => [[]]
  | c :: rest =>
    if c = '.' then [] :: splitDot rest
    else
      match splitDot rest with
      | [] => [[c]]
      | p :: ps => (c :: p) :: ps

/-- `data.value("pingTimeout", m_pingTimeout)`. -/
def pingTimeoutUpdate (data : Json) (current : Nat) : Nat :=
  match jget data "pingTimeout" with
  | some (Json.num n) => n.toNat
  | _ => current

/-- The switch of `SCSocket::readSomeHandler` over a decoded single-object
packet (`src/scio_beast.hpp:1281-1437`).  `parseJson` stands for
`json::parse` (returning `none` for the `std::invalid_argument` the source
catches) and `base64Dec` for the boost base64 transform; both are external
library collaborators injected as parameters.  The `EVENT` case's response
callback (which would enqueue `{rid: cid, data: resp}`) is abstracted to
the `wantsResponse` flag of the emitted event. -/
def dispatchPacket (parseJson : String → Option Json) (base64Dec : String → String)
    (s : SocketState) (payload : Json) : SocketState × List SEvent :=
  match getEventType payload with
  | ProtocolEvent.IS_AUTHENTICATED =>
    (s, [SEvent.connectEvent payload])
  | ProtocolEvent.PUBLISH =>
    match jget payload "data" with
    | some data =>
      match jget data "channel", jget data "data" with
      | some (Json.str channelName), some innerData =>
        match lookupChannel s.channels channelName with
        | some _ => (s, [SEvent.channelMessageEvent channelName innerData])
        | none => (s, [])
      | _, _ => (s, [SEvent.errorEvent ScioError.protocolError])
    | none => (s, [SEvent.errorEvent ScioError.protocolError])
  | ProtocolEvent.REMOVE_TOKEN =>
    ({ s with signedAuthToken := "", authToken := Json.obj [] },
     [SEvent.deauthenticateEvent])
  | ProtocolEvent.SET_TOKEN =>
    match jget payload "data" with
    | some data =>
      match jget data "token" with
      | some (Json.str jwtToken) =>
        let s1 := { s with pingTimeout := pingTimeoutUpdate data s.pingTimeout }
        let jwtParts := splitDot jwtToken.toList
        if jwtParts.length = 3 then
          match parseJson (base64Dec (String.mk (jwtParts.getD 1 []))) with
          | some tok =>
            let oldJwtToken := s1.signedAuthToken
            let s2 := { s1 with authToken := tok, signedAuthToken := jwtToken }
            (s2, (if oldJwtToken = "" then [SEvent.authenticateEvent jwtToken] else [])
                 ++ [SEvent.authTokenChangeEvent jwtToken])
          | none => (s1, [SEvent.errorEvent ScioError.protocolError])
        else
          (s1, [])
      | _ => (s, [SEvent.errorEvent ScioError.protocolError])
    | none => (s, [SEvent.errorEvent ScioError.protocolError])
  | ProtocolEvent.ACK_RECEIVE =>
    let rid := (jvalueInt payload "rid" 0).toNat
    match lookupPending s.pendingResponses rid with
    | some _ =>
      match jget payload "error" with
      | some err => (s, [SEvent.handlerInvoke rid (some ScioError.responseError) err])
      | none =>
        (s, [SEvent.handlerInvoke rid none (jvalueD payload "data" (Json.obj []))])
    | none => (s, [SEvent.errorEvent ScioError.unexpectedRid])
  | ProtocolEvent.EVENT =>
    let cid := jvalueInt payload "cid" 0
    match jget payload "event", jget payload "data" with
    | some (Json.str eventName), some eventData =>
      (s, [SEvent.emitEvent eventName eventData (cid ≠ 0)])
    | _, _ => (s, [SEvent.errorEvent ScioError.protocolError])
  | ProtocolEvent.UNKNOWN => (s, [])

/-!
## Reconnect timing

`SCSocket::tryReconnect` (`src/scio_beast.hpp:1073-1109`) computes, on its
default code path (`RECONENCT_DELAY_INVALID == initialDelay || exponent > 0`,
which is the path always taken from `closeHandler`),

    initialTimeout = round(initialDelay + randomness * u)       (u ∈ [0,1])
    timeout        = round(initialTimeout * multiplier^exponent)
    timeout        = min(timeout, maxDelay)

with `exponent = m_connectAttempts++` (the value before the increment).
The model uses exact rationals.  For the concrete evaluations below this is
faithful to the C++ `double` computation: with the default options every
intermediate value is a dyadic rational (`1.5^n = 3^n / 2^n` is exactly
representable for `n ≤ 33`, and its products with the integer operands here
stay below `2^53`), so the correctly rounded IEEE operations produce the
exact rational values.
-/

/-- `scio_beast::AutoReconnectOptions` with its defaults
(`src/scio_beast.hpp:422-436`). -/
structure AutoReconnectOptions where
  initialDelay : Nat
  randomness : Nat
  multiplier : ℚ
  maxDelay : Nat

/-- The default-constructed options: 10000 ms, 10000 ms, 1.5, 60000 ms. -/
def defaultAutoReconnectOptions : AutoReconnectOptions :=
  ⟨10000, 10000, 3 / 2, 60000⟩

/-- `std::round` on the non-negative values reached here: round half away
from zero, i.e. `⌊x + 1/2⌋` for `x ≥ 0`. -/
def roundQ (q : ℚ) : ℤ := ⌊q + 1 / 2⌋

/-- The `timeout` value of `SCSocket::tryReconnect` before the `maxDelay`
clamp, for attempt number `exponent` and jitter sample `u`. -/
def reconnectPreClamp (opts : AutoReconnectOptions) (exponent : Nat) (u : ℚ) : ℤ :=
  let initialTimeout := roundQ ((opts.initialDelay : ℚ) + (opts.randomness : ℚ) * u)
  roundQ ((initialTimeout : ℚ) * opts.multiplier ^ exponent)

/-- The delay `SCSocket::tryReconnect` arms its timer with: the pre-clamp
value clamped above by `maxDelay`. -/
def tryReconnectTimeout (opts : AutoReconnectOptions) (exponent : Nat) (u : ℚ) : ℤ :=
  min (reconnectPreClamp opts exponent u) (opts.maxDelay : ℤ)

/-!
## Claim theorems
-/

/-- **C3** (code bug).  The claim states that `decode(encode(p))` equals `p`
up to optional-field presence for the emit, publish and response shapes, and
in particular that the `channel` field of a `#publish` packet survives the
round trip.  Evaluated at the concrete publish packet
`{event: "#publish", data: {channel: "room", data: 1}}`, the code's round
trip instead returns `data.channel = "#publish"`: `compressPublishPacket`
stores the event name as `p[0]` while `decompressPublishPacket` reads
`p[0]` back as the channel, so the channel name is lost (always replaced by
the literal `"#publish"`). -/
theorem C3_publish_channel_lost :
    decodeRewrite (encodeRewrite (Json.obj
        [("data", Json.obj [("channel", Json.str "room"), ("data", Json.num 1)]),
         ("event", Json.str "#publish")])) =
      Json.obj
        [("data", Json.obj [("channel", Json.str "#publish"), ("data", Json.num 1)]),
         ("event", Json.str "#publish")] ∧
    ("#publish" : String) ≠ "room" := by
  exact ⟨rfl, by decide⟩

/-- **C9** (confirmed).  For a JSON object whose `event` field is absent or
the empty string and whose `rid` field is absent or zero,
`CodecEngineMinBin::encode` serializes the default-constructed null,
discarding the object entirely (so encoding is not pass-through), while
`decode` passes such an object through unchanged (given it carries none of
the compression keys `e`/`p`/`r`). -/
theorem C9_encode_discards (fs : List (String × Json))
    (hev : lookupField fs "event" = none ∨ lookupField fs "event" = some (Json.str ""))
    (hrid : lookupField fs "rid" = none ∨ lookupField fs "rid" = some (Json.num 0))
    (he : lookupField fs "e" = none)
    (hp : lookupField fs "p" = none)
    (hr : lookupField fs "r" = none) :
    encodeRewrite (Json.obj fs) = Json.null ∧
    Json.null ≠ Json.obj fs ∧
    decodeRewrite (Json.obj fs) = Json.obj fs := by
  refine ⟨?_, by intro h; exact Json.noConfusion h, ?_⟩
  · show (if jvalueStr (Json.obj fs) "event" "" ≠ "" ∨
        jvalueInt (Json.obj fs) "rid" 0 ≠ 0 then
        compressSinglePacket (Json.obj fs) else Json.null) = Json.null
    have h1 : jvalueStr (Json.obj fs) "event" "" = "" := by
      rcases hev with h | h <;> simp [jvalueStr, jget, h]
    have h2 : jvalueInt (Json.obj fs) "rid" 0 = 0 := by
      rcases hrid with h | h <;> simp [jvalueInt, jget, h]
    simp [h1, h2]
  · show decompressSinglePacket (Json.obj fs) = Json.obj fs
    unfold decompressSinglePacket decompressEmitPacket decompressPublishPacket
      decompressResponsePacket
    simp [jget, he, hp, hr]

/-- Witness for C9 at the object `{data: 5}`. -/
theorem C9_encode_discards_witness :
    encodeRewrite (Json.obj [("data", Json.num 5)]) = Json.null ∧
    Json.null ≠ Json.obj [("data", Json.num 5)] ∧
    decodeRewrite (Json.obj [("data", Json.num 5)]) = Json.obj [("data", Json.num 5)] :=
  C9_encode_discards [("data", Json.num 5)]
    (Or.inl rfl) (Or.inl rfl) rfl rfl rfl

/-- **C5** (confirmed).  Classification of a decoded single-object packet:
a present (string) `event` yields `PUBLISH` / `REMOVE_TOKEN` / `SET_TOKEN`
for the three reserved names and `EVENT` otherwise; with no `event`,
`rid == 1` yields `IS_AUTHENTICATED` and anything else `ACK_RECEIVE`; an
`IS_AUTHENTICATED` packet triggers the connect event with the full
payload. -/
theorem C5_classification (payload : Json) :
    (∀ ev, jget payload "event" = some (Json.str ev) →
      getEventType payload =
        (if ev = "#publish" then ProtocolEvent.PUBLISH
         else if ev = "#removeAuthToken" then ProtocolEvent.REMOVE_TOKEN
         else if ev = "#setAuthToken" then ProtocolEvent.SET_TOKEN
         else ProtocolEvent.EVENT)) ∧
    (jget payload "event" = none →
      getEventType payload =
        (if jvalueInt payload "rid" 0 = 1 then ProtocolEvent.IS_AUTHENTICATED
         else ProtocolEvent.ACK_RECEIVE)) ∧
    (∀ parseJson base64Dec s,
      getEventType payload = ProtocolEvent.IS_AUTHENTICATED →
      dispatchPacket parseJson base64Dec s payload =
        (s, [SEvent.connectEvent payload])) := by
  refine ⟨fun ev h => ?_, fun h => ?_, fun parseJson base64Dec s h => ?_⟩
  · simp [getEventType, h]
  · simp [getEventType, h]
  · simp [dispatchPacket, h]

/-- Witness for C5: concrete packets of each hypothesis shape. -/
theorem C5_classification_witness :
    getEventType (Json.obj [("event", Json.str "#removeAuthToken")]) =
      ProtocolEvent.REMOVE_TOKEN ∧
    getEventType (Json.obj [("rid", Json.num 1)]) =
      ProtocolEvent.IS_AUTHENTICATED ∧
    dispatchPacket (fun _ => none) (fun x => x)
        ⟨ConnState.OPEN, "", Json.obj [], 1, [], [], [], 10000⟩
        (Json.obj [("rid", Json.num 1)]) =
      (⟨ConnState.OPEN, "", Json.obj [], 1, [], [], [], 10000⟩,
       [SEvent.connectEvent (Json.obj [("rid", Json.num 1)])]) := by
  refine ⟨?_, ?_, ?_⟩
  · have h := (C5_classification
      (Json.obj [("event", Json.str "#removeAuthToken")])).1 "#removeAuthToken" rfl
    rw [h]; decide
  · have h := (C5_classification (Json.obj [("rid", Json.num 1)])).2.1 rfl
    rw [h]; decide
  · exact (C5_classification (Json.obj [("rid", Json.num 1)])).2.2
      (fun _ => none) (fun x => x) _ (by decide)

/-- **C6** (confirmed).  `tryChannelSubscribe` enqueues the `#subscribe`
packet if and only if the socket is `OPEN` and (`waitForAuth` is off or the
signed auth token is non-empty, which is exactly `getAuthState() ==
AUTHENTICATED`); when the gate is unmet the whole state — the channel left
`PENDING` by `subscribe`, the egress queue, the pending-response table — is
untouched. -/
theorem C6_subscribe_gate (s : SocketState) (name : String)
    (opts : ChannelSubscriptionOptions) :
    ((tryChannelSubscribe s name opts).outQueue =
        s.outQueue ++ [emitPayload "#subscribe" (subscribeChannelData name opts)
          (some s.nextCallId)]
      ↔ (s.connState = ConnState.OPEN ∧
          (opts.waitForAuth = false ∨ s.signedAuthToken ≠ ""))) ∧
    (getAuthState s = AuthState.AUTHENTICATED ↔ s.signedAuthToken ≠ "") ∧
    (¬ (s.connState = ConnState.OPEN ∧
        (opts.waitForAuth = false ∨ s.signedAuthToken ≠ "")) →
      tryChannelSubscribe s name opts = s) := by
  have hauth : getAuthState s = AuthState.AUTHENTICATED ↔ s.signedAuthToken ≠ "" := by
    by_cases h : s.signedAuthToken = "" <;> simp [getAuthState, h]
  by_cases hg : s.connState = ConnState.OPEN ∧
      (opts.waitForAuth = false ∨ s.signedAuthToken ≠ "")
  · have hg' : s.connState = ConnState.OPEN ∧
        (opts.waitForAuth = false ∨ getAuthState s = AuthState.AUTHENTICATED) :=
      ⟨hg.1, hg.2.imp id hauth.mpr⟩
    refine ⟨?_, hauth, fun hn => absurd hg hn⟩
    simp only [tryChannelSubscribe, if_pos hg', emitOp, if_pos rfl]
    simpa using hg
  · have hg' : ¬ (s.connState = ConnState.OPEN ∧
        (opts.waitForAuth = false ∨ getAuthState s = AuthState.AUTHENTICATED)) := by
      intro h; exact hg ⟨h.1, h.2.imp id hauth.mp⟩
    refine ⟨?_, hauth, fun _ => ?_⟩
    · simp only [tryChannelSubscribe, if_neg hg']
      simpa using hg
    · simp only [tryChannelSubscribe, if_neg hg']

/-- Witness for C6: with an `OPEN` socket and `waitForAuth` off, the
`#subscribe` packet is enqueued. -/
theorem C6_subscribe_gate_witness :
    (tryChannelSubscribe ⟨ConnState.OPEN, "", Json.obj [], 1, [], [], [], 10000⟩
        "room" ⟨false, Json.null⟩).outQueue =
      [] ++ [emitPayload "#subscribe" (subscribeChannelData "room" ⟨false, Json.null⟩)
        (some 1)] :=
  ((C6_subscribe_gate ⟨ConnState.OPEN, "", Json.obj [], 1, [], [], [], 10000⟩
    "room" ⟨false, Json.null⟩).1).mpr ⟨rfl, Or.inl rfl⟩

/-- **C10** (confirmed).  For a channel name not in the registry,
`unsubscribe`, `destroyChannel` and `unwatch` are no-ops: the socket state
(registry, egress queue, pending-response table, `next_call_id`, connection
state, auth token) is returned unchanged and no events are emitted. -/
theorem C10_missing_channel_noop (s : SocketState) (name : String)
    (h : lookupChannel s.channels name = none) :
    unsubscribeOp s name = (s, []) ∧
    destroyChannelOp s name = (s, []) ∧
    unwatchOp s name = (s, []) := by
  unfold unsubscribeOp destroyChannelOp unwatchOp
  rw [h]
  exact ⟨rfl, rfl, rfl⟩

/-- Witness for C10 at an empty registry. -/
theorem C10_missing_channel_noop_witness :
    unsubscribeOp ⟨ConnState.OPEN, "", Json.obj [], 1, [], [], [], 10000⟩ "room" =
      (⟨ConnState.OPEN, "", Json.obj [], 1, [], [], [], 10000⟩, []) ∧
    destroyChannelOp ⟨ConnState.OPEN, "", Json.obj [], 1, [], [], [], 10000⟩ "room" =
      (⟨ConnState.OPEN, "", Json.obj [], 1, [], [], [], 10000⟩, []) ∧
    unwatchOp ⟨ConnState.OPEN, "", Json.obj [], 1, [], [], [], 10000⟩ "room" =
      (⟨ConnState.OPEN, "", Json.obj [], 1, [], [], [], 10000⟩, []) :=
  C10_missing_channel_noop ⟨ConnState.OPEN, "", Json.obj [], 1, [], [], [], 10000⟩
    "room" rfl

/-- **C1** (code bug).  The claim (and spec §3/§8) require the
`ResponseItem` to be removed from the pending-response table when its
response arrives, so that each handler has exactly one outcome and a
duplicate `rid` cannot dispatch it again.  The `ACK_RECEIVE` case of
`readSomeHandler` reads `m_pendingResponses.at(rid)` and invokes the
handler but never erases the entry (contrast `handleEmitAckTimeout`, which
does).  Evaluated at a state holding a pending handler for cid 2: the first
`{rid: 2}` packet dispatches the handler yet leaves the table unchanged,
and a second identical packet dispatches the very same handler again. -/
theorem C1_duplicate_rid_dispatch :
    dispatchPacket (fun _ => none) (fun x => x)
        ⟨ConnState.OPEN, "", Json.obj [], 3, [], [(2, ⟨true⟩)], [], 10000⟩
        (Json.obj [("rid", Json.num 2)]) =
      (⟨ConnState.OPEN, "", Json.obj [], 3, [], [(2, ⟨true⟩)], [], 10000⟩,
       [SEvent.handlerInvoke 2 none (Json.obj [])]) ∧
    (dispatchPacket (fun _ => none) (fun x => x)
        ⟨ConnState.OPEN, "", Json.obj [], 3, [], [(2, ⟨true⟩)], [], 10000⟩
        (Json.obj [("rid", Json.num 2)])).1.pendingResponses ≠ [] ∧
    (dispatchPacket (fun _ => none) (fun x => x)
        (dispatchPacket (fun _ => none) (fun x => x)
          ⟨ConnState.OPEN, "", Json.obj [], 3, [], [(2, ⟨true⟩)], [], 10000⟩
          (Json.obj [("rid", Json.num 2)])).1
        (Json.obj [("rid", Json.num 2)])).2 =
      [SEvent.handlerInvoke 2 none (Json.obj [])] := by
  exact ⟨rfl, by decide, rfl⟩

/-- The per-channel demotion `suspendChannelSubscriptions` performs, stated
as in the amended claim: `SUBSCRIBED` and `PENDING` go to `PENDING`,
`UNSUBSCRIBED` stays `UNSUBSCRIBED`. -/
def closeDemote : ChannelState → ChannelState
  | ChannelState.SUBSCRIBED => ChannelState.PENDING
  | ChannelState.PENDING => ChannelState.PENDING
  | ChannelState.UNSUBSCRIBED => ChannelState.UNSUBSCRIBED

/-- The events emitted on close for one channel, stated as in the amended
claim: the state-change/unsubscribe pair only for a `SUBSCRIBED` channel. -/
def closeChannelEvents (name : String) (ch : Channel) : List SEvent :=
  if ch.state = ChannelState.SUBSCRIBED then
    [SEvent.subscriptionStateChangeEvent name ChannelState.SUBSCRIBED
      ChannelState.PENDING,
     SEvent.unsubscribeEvent name]
  else []

/-- The whole close-time event trace, per channel in registry order. -/
def closeEventsSpec : List (String × Channel) → List SEvent
  | [] => []
  | (name, ch) :: rest => closeChannelEvents name ch ++ closeEventsSpec rest

theorem suspendChannelSubscriptions_eq (chs : List (String × Channel)) :
    suspendChannelSubscriptions chs =
      (chs.map (fun nc => (nc.1, { nc.2 with state := closeDemote nc.2.state })),
       closeEventsSpec chs) := by
  induction chs with
  | nil => rfl
  | cons hd tl ih =>
    obtain ⟨name, ch⟩ := hd
    obtain ⟨st, w⟩ := ch
    simp only [suspendChannelSubscriptions, ih, closeEventsSpec, List.map]
    cases st <;>
      simp [triggerChannelUnsubscribe, closeDemote, closeChannelEvents]

/-- **C2** (corrected).  On close the egress queue is cleared and an `OPEN`
socket moves to `CLOSED`, but — against the claim — the pending-response
table is left untouched, and the unsubscribe / subscription-state-change
events fire only for channels that were `SUBSCRIBED`: a `PENDING` channel
stays `PENDING` silently, an `UNSUBSCRIBED` channel stays `UNSUBSCRIBED`. -/
theorem C2_close_effects (s : SocketState) :
    (internalCloseOp s).1.outQueue = [] ∧
    (internalCloseOp s).1.pendingResponses = s.pendingResponses ∧
    (internalCloseOp s).1.channels =
      s.channels.map (fun nc => (nc.1, { nc.2 with state := closeDemote nc.2.state })) ∧
    (internalCloseOp s).2 = closeEventsSpec s.channels ∧
    (s.connState = ConnState.OPEN →
      (internalCloseOp s).1.connState = ConnState.CLOSED) := by
  by_cases h : s.connState = ConnState.OPEN <;>
    simp [internalCloseOp, suspendChannelSubscriptions_eq, h]

/-- Witness for C2 at a concrete `OPEN` socket with one subscribed
channel. -/
theorem C2_close_effects_witness :
    (internalCloseOp ⟨ConnState.OPEN, "", Json.obj [], 3, [Json.null], [],
        [("room", ⟨ChannelState.SUBSCRIBED, 0⟩)], 10000⟩).1.connState =
      ConnState.CLOSED ∧
    (internalCloseOp ⟨ConnState.OPEN, "", Json.obj [], 3, [Json.null], [],
        [("room", ⟨ChannelState.SUBSCRIBED, 0⟩)], 10000⟩).2 =
      closeEventsSpec [("room", ⟨ChannelState.SUBSCRIBED, 0⟩)] :=
  ⟨(C2_close_effects ⟨ConnState.OPEN, "", Json.obj [], 3, [Json.null], [],
      [("room", ⟨ChannelState.SUBSCRIBED, 0⟩)], 10000⟩).2.2.2.2 rfl,
   (C2_close_effects ⟨ConnState.OPEN, "", Json.obj [], 3, [Json.null], [],
      [("room", ⟨ChannelState.SUBSCRIBED, 0⟩)], 10000⟩).2.2.2.1⟩

/-- Counterexample for C2 as stated: closing an `OPEN` socket that holds a
pending response and a `PENDING` channel leaves the pending-response table
non-empty (the claim says it is cleared) and emits no events at all (the
claim says unsubscribe and state-change events fire for the `PENDING`
channel). -/
theorem C2_counterexample :
    (internalCloseOp ⟨ConnState.OPEN, "", Json.obj [], 3, [Json.null], [(2, ⟨true⟩)],
        [("room", ⟨ChannelState.PENDING, 0⟩)], 10000⟩).1.pendingResponses ≠ [] ∧
    (internalCloseOp ⟨ConnState.OPEN, "", Json.obj [], 3, [Json.null], [(2, ⟨true⟩)],
        [("room", ⟨ChannelState.PENDING, 0⟩)], 10000⟩).2 = [] := by
  exact ⟨by decide, rfl⟩

theorem lookupPending_append_fresh (l : List (Nat × ResponseItem)) (cid : Nat)
    (it : ResponseItem) (h : lookupPending l cid = none) :
    lookupPending (l ++ [(cid, it)]) cid = some it := by
  induction l with
  | nil => simp [lookupPending]
  | cons hd tl ih =>
    obtain ⟨c, x⟩ := hd
    simp only [lookupPending, List.cons_append] at h ⊢
    by_cases hc : c = cid
    · rw [if_pos hc] at h; exact absurd h (by simp)
    · rw [if_neg hc] at h ⊢
      exact ih h

theorem erasePending_append_fresh (l : List (Nat × ResponseItem)) (cid : Nat)
    (it : ResponseItem) (h : lookupPending l cid = none) :
    erasePending (l ++ [(cid, it)]) cid = l := by
  induction l with
  | nil => simp [erasePending]
  | cons hd tl ih =>
    obtain ⟨c, x⟩ := hd
    simp only [lookupPending] at h
    simp only [List.cons_append, erasePending]
    by_cases hc : c = cid
    · rw [if_pos hc] at h; exact absurd h (by simp)
    · rw [if_neg hc] at h
      rw [if_neg hc]
      exact congrArg (fun ys => (c, x) :: ys) (ih h)

/-- **C4** (corrected).  An emit with a handler and `no_timeout = false`
registers a `ResponseItem` with an ack timer under the freshly issued cid;
when the timer fires with no response received, `handleEmitAckTimeout`
removes that entry and invokes the handler exactly once with the
`ack_timeout` error and the synthetic payload — whose message (against the
claim's exact wording) is `"no ack for call id (cid) <cid>"`, with the
literal `"(cid) "` inserted.  A second expiry for the same cid does
nothing. -/
theorem C4_ack_timeout_message (s : SocketState) (ev : String) (d : Json)
    (hfresh : lookupPending s.pendingResponses s.nextCallId = none) :
    lookupPending ((emitOp s ev d true false).1).pendingResponses s.nextCallId
      = some ⟨true⟩ ∧
    handleEmitAckTimeout (emitOp s ev d true false).1 s.nextCallId =
      ({ (emitOp s ev d true false).1 with
          pendingResponses := s.pendingResponses },
       [SEvent.handlerInvoke s.nextCallId (some ScioError.ackTimeout)
          (Json.obj [("error", Json.obj [("message",
            Json.str ("no ack for call id (cid) " ++ toString s.nextCallId))])])]) ∧
    handleEmitAckTimeout
        (handleEmitAckTimeout (emitOp s ev d true false).1 s.nextCallId).1
        s.nextCallId =
      ((handleEmitAckTimeout (emitOp s ev d true false).1 s.nextCallId).1, []) := by
  have h1 : ((emitOp s ev d true false).1).pendingResponses
      = s.pendingResponses ++ [(s.nextCallId, ⟨true⟩)] := by
    simp [emitOp]
  have h2 := lookupPending_append_fresh s.pendingResponses s.nextCallId ⟨true⟩ hfresh
  have h3 := erasePending_append_fresh s.pendingResponses s.nextCallId ⟨true⟩ hfresh
  refine ⟨by rw [h1]; exact h2, ?_, ?_⟩
  · simp only [handleEmitAckTimeout, h1, h2, h3, ackTimeoutPayload]
  · simp only [handleEmitAckTimeout, h1, h2, h3, hfresh]

/-- Witness for C4 at an empty pending-response table and `nextCallId = 2`
(the first cid issued after the `#handshake`). -/
theorem C4_ack_timeout_message_witness :
    lookupPending ((emitOp ⟨ConnState.OPEN, "", Json.obj [], 2, [], [], [], 10000⟩
        "slow" Json.null true false).1).pendingResponses 2 = some ⟨true⟩ ∧
    handleEmitAckTimeout
        (emitOp ⟨ConnState.OPEN, "", Json.obj [], 2, [], [], [], 10000⟩
          "slow" Json.null true false).1 2 =
      ({ (emitOp ⟨ConnState.OPEN, "", Json.obj [], 2, [], [], [], 10000⟩
            "slow" Json.null true false).1 with pendingResponses := [] },
       [SEvent.handlerInvoke 2 (some ScioError.ackTimeout)
          (Json.obj [("error", Json.obj [("message",
            Json.str ("no ack for call id (cid) " ++ toString 2))])])]) :=
  ⟨(C4_ack_timeout_message ⟨ConnState.OPEN, "", Json.obj [], 2, [], [], [], 10000⟩
      "slow" Json.null rfl).1,
   (C4_ack_timeout_message ⟨ConnState.OPEN, "", Json.obj [], 2, [], [], [], 10000⟩
      "slow" Json.null rfl).2.1⟩

/-- Counterexample for C4 as stated: for cid 2 the synthetic message the
source builds (`"no ack for call id (cid) " << std::dec << cid`) is
`"no ack for call id (cid) 2"`, not the claim's exact
`"no ack for call id 2"`. -/
theorem C4_counterexample :
    (handleEmitAckTimeout
        (emitOp ⟨ConnState.OPEN, "", Json.obj [], 2, [], [], [], 10000⟩
          "slow" Json.null true false).1 2).2 =
      [SEvent.handlerInvoke 2 (some ScioError.ackTimeout)
        (Json.obj [("error", Json.obj [("message",
          Json.str "no ack for call id (cid) 2")])])] ∧
    ("no ack for call id (cid) 2" : String) ≠ "no ack for call id 2" := by
  exact ⟨rfl, by decide⟩

/-- **C7** (corrected).  For an inbound `#setAuthToken` packet carrying
`data.token`: a token that does not split on `'.'` into exactly three parts
is — against the claim — silently ignored (the source's `else` branch is an
unresolved TODO: no error event, tokens unchanged, only `pingTimeout`
updated); a three-part token whose decoded payload fails to JSON-parse
raises `ProtocolError` on the error event; a well-formed token updates
`auth_token` and `signed_auth_token`, emits `authenticate` iff the previous
signed token was empty, and always emits `auth-token-change`. -/
theorem C7_set_token (parseJson : String → Option Json) (base64Dec : String → String)
    (s : SocketState) (payload data : Json) (token : String)
    (hev : jget payload "event" = some (Json.str "#setAuthToken"))
    (hd : jget payload "data" = some data)
    (ht : jget data "token" = some (Json.str token)) :
    ((splitDot token.toList).length ≠ 3 →
      dispatchPacket parseJson base64Dec s payload =
        ({ s with pingTimeout := pingTimeoutUpdate data s.pingTimeout }, [])) ∧
    ((splitDot token.toList).length = 3 →
      parseJson (base64Dec (String.mk ((splitDot token.toList).getD 1 []))) = none →
      dispatchPacket parseJson base64Dec s payload =
        ({ s with pingTimeout := pingTimeoutUpdate data s.pingTimeout },
         [SEvent.errorEvent ScioError.protocolError])) ∧
    (∀ tok, (splitDot token.toList).length = 3 →
      parseJson (base64Dec (String.mk ((splitDot token.toList).getD 1 []))) = some tok →
      dispatchPacket parseJson base64Dec s payload =
        ({ s with
            pingTimeout := pingTimeoutUpdate data s.pingTimeout,
            authToken := tok,
            signedAuthToken := token },
         (if s.signedAuthToken = "" then [SEvent.authenticateEvent token] else [])
           ++ [SEvent.authTokenChangeEvent token])) := by
  have hclass : getEventType payload = ProtocolEvent.SET_TOKEN := by
    simp [getEventType, hev]
  refine ⟨fun hlen => ?_, fun hlen hparse => ?_, fun tok hlen hparse => ?_⟩
  · simp only [String.toList] at hlen
    simp [dispatchPacket, hclass, hd, ht]
    intro hc
    exact absurd hc hlen
  · simp only [String.toList] at hlen hparse
    have hb : 1 < (splitDot token.data).length := by omega
    rw [List.getD_eq_getElem _ _ hb] at hparse
    simp [dispatchPacket, hclass, hd, ht, hlen, hparse]
  · simp only [String.toList] at hlen hparse
    have hb : 1 < (splitDot token.data).length := by omega
    rw [List.getD_eq_getElem _ _ hb] at hparse
    simp [dispatchPacket, hclass, hd, ht, hlen, hparse]

/-- Witness for C7's well-formed-token case, with a parse function
returning `{}` for the decoded payload. -/
theorem C7_set_token_witness :
    dispatchPacket (fun _ => some (Json.obj [])) (fun x => x)
        ⟨ConnState.OPEN, "", Json.obj [], 1, [], [], [], 10000⟩
        (Json.obj [("data", Json.obj [("token", Json.str "a.b.c")]),
          ("event", Json.str "#setAuthToken")]) =
      (⟨ConnState.OPEN, "a.b.c", Json.obj [], 1, [], [], [], 10000⟩,
       [SEvent.authenticateEvent "a.b.c", SEvent.authTokenChangeEvent "a.b.c"]) := by
  have h := (C7_set_token (fun _ => some (Json.obj [])) (fun x => x)
      ⟨ConnState.OPEN, "", Json.obj [], 1, [], [], [], 10000⟩
      (Json.obj [("data", Json.obj [("token", Json.str "a.b.c")]),
        ("event", Json.str "#setAuthToken")])
      (Json.obj [("token", Json.str "a.b.c")]) "a.b.c"
      rfl rfl rfl).2.2 (Json.obj []) rfl rfl
  exact h.trans rfl

/-- Counterexample for C7 as stated: the `#setAuthToken` packet whose token
`"not-a-jwt"` fails the three-part JWT split produces NO event at all — in
particular no `ProtocolError` on the error event — and leaves the auth
state untouched. -/
theorem C7_counterexample :
    dispatchPacket (fun _ => none) (fun x => x)
        ⟨ConnState.OPEN, "", Json.obj [], 1, [], [], [], 10000⟩
        (Json.obj [("data", Json.obj [("token", Json.str "not-a-jwt")]),
          ("event", Json.str "#setAuthToken")]) =
      (⟨ConnState.OPEN, "", Json.obj [], 1, [], [], [], 10000⟩, []) := by
  rfl

theorem roundQ_gt_sub_half (q : ℚ) : q - 1 / 2 < (roundQ q : ℚ) := by
  have h := Int.sub_one_lt_floor (q + 1 / 2)
  rw [roundQ]
  push_cast at h ⊢
  linarith

theorem le_roundQ_of_le (n : ℤ) (q : ℚ) (h : (n : ℚ) ≤ q) : n ≤ roundQ q := by
  rw [roundQ, Int.le_floor]
  linarith

/-- **C8** (corrected).  The computed reconnect delay never exceeds
`maxDelay`, and with the default options the pre-clamp value
`round(round(initialDelay + randomness*u) * multiplier^n)` exceeds
`initialDelay * multiplier^n − 1/2` for every attempt number `n` and
jitter `u ≥ 0` — but (against the claim) it is NOT always `≥
initialDelay * multiplier^n`, since the outer `round` may round down by up
to half: see the counterexample at `n = 6`, `u = 0`. -/
theorem C8_reconnect_delay (exponent : Nat) (u : ℚ) (hu : 0 ≤ u) :
    tryReconnectTimeout defaultAutoReconnectOptions exponent u ≤ 60000 ∧
    (10000 : ℚ) * (3 / 2) ^ exponent - 1 / 2 <
      (reconnectPreClamp defaultAutoReconnectOptions exponent u : ℚ) := by
  refine ⟨min_le_right _ _, ?_⟩
  have hpow : (0 : ℚ) ≤ (3 / 2 : ℚ) ^ exponent := by positivity
  have hb : (10000 : ℤ) ≤ roundQ ((10000 : ℚ) + (10000 : ℚ) * u) :=
    le_roundQ_of_le 10000 _ (by push_cast; nlinarith)
  have hbq : (10000 : ℚ) ≤ ((roundQ ((10000 : ℚ) + (10000 : ℚ) * u) : ℤ) : ℚ) := by
    exact_mod_cast hb
  have hstep : (10000 : ℚ) * (3 / 2 : ℚ) ^ exponent ≤
      ((roundQ ((10000 : ℚ) + (10000 : ℚ) * u) : ℤ) : ℚ) * (3 / 2 : ℚ) ^ exponent :=
    mul_le_mul_of_nonneg_right hbq hpow
  have hfl := roundQ_gt_sub_half
    (((roundQ ((10000 : ℚ) + (10000 : ℚ) * u) : ℤ) : ℚ) * (3 / 2 : ℚ) ^ exponent)
  have hgoal : (10000 : ℚ) * (3 / 2 : ℚ) ^ exponent - 1 / 2 <
      ((roundQ (((roundQ ((10000 : ℚ) + (10000 : ℚ) * u) : ℤ) : ℚ)
        * (3 / 2 : ℚ) ^ exponent) : ℤ) : ℚ) := by
    linarith
  have hcast : reconnectPreClamp defaultAutoReconnectOptions exponent u =
      roundQ (((roundQ ((10000 : ℚ) + (10000 : ℚ) * u) : ℤ) : ℚ)
        * (3 / 2 : ℚ) ^ exponent) := by
    show roundQ (((roundQ (((10000 : ℕ) : ℚ) + ((10000 : ℕ) : ℚ) * u) : ℤ) : ℚ)
        * (3 / 2 : ℚ) ^ exponent) = _
    norm_num
  rw [hcast]
  exact hgoal

/-- Witness for C8 at attempt 1 with jitter sample 1/2. -/
theorem C8_reconnect_delay_witness :
    (0 : ℚ) ≤ 1 / 2 ∧
    (tryReconnectTimeout defaultAutoReconnectOptions 1 (1 / 2) ≤ 60000 ∧
     (10000 : ℚ) * (3 / 2) ^ 1 - 1 / 2 <
       (reconnectPreClamp defaultAutoReconnectOptions 1 (1 / 2) : ℚ)) :=
  ⟨by norm_num, C8_reconnect_delay 1 (1 / 2) (by norm_num)⟩

/-- Counterexample for C8 as stated: at attempt `n = 6` with jitter `u = 0`
(all defaults, every intermediate IEEE double value exact), the pre-clamp
value is `round(10000 * 1.5^6) = round(113906.25) = 113906`, which is
strictly below `initial_delay * multiplier^6 = 113906.25`. -/
theorem C8_counterexample :
    reconnectPreClamp defaultAutoReconnectOptions 6 0 = 113906 ∧
    (reconnectPreClamp defaultAutoReconnectOptions 6 0 : ℚ) <
      (10000 : ℚ) * (3 / 2) ^ 6 := by
  have h1 : roundQ (((10000 : ℕ) : ℚ) + ((10000 : ℕ) : ℚ) * 0) = 10000 := by
    rw [roundQ, Int.floor_eq_iff]
    constructor <;> norm_num
  have h2 : reconnectPreClamp defaultAutoReconnectOptions 6 0 = 113906 := by
    show roundQ (((roundQ (((10000 : ℕ) : ℚ) + ((10000 : ℕ) : ℚ) * 0) : ℤ) : ℚ)
        * (3 / 2 : ℚ) ^ 6) = 113906
    rw [h1]
    rw [roundQ, Int.floor_eq_iff]
    constructor <;> norm_num
  refine ⟨h2, ?_⟩
  rw [h2]
  norm_num

end ScioBeast
